import Mathlib

/-!
Verification of the scroll-pinned phase animation engine in
`client/src/pages/home.tsx`. Machine numbers are modelled as exact
rationals; the engine is a family of pure functions from a normalized
scroll progress to per-target visual state (opacity, vertical offset,
active item index).
-/

namespace LabDiamonds

/-- The PinTimings record (home.tsx lines 11-15): three fade thresholds. -/
structure PinTimings where
  fadeInEnd : ℚ
  holdEnd : ℚ
  fadeOutEnd : ℚ
deriving DecidableEq

/-- The default TIMINGS constant (home.tsx lines 17-21). -/
def TIMINGS : PinTimings :=
  { fadeInEnd := 0.2, holdEnd := 0.7, fadeOutEnd := 0.9 }

/-- The clamp01 helper (home.tsx lines 23-25): Math.min(1, Math.max(0, n)). -/
def clamp01 (n : ℚ) : ℚ := min 1 (max 0 n)

/-- The phaseOpacity function (home.tsx lines 27-34), generalized over the
global TIMINGS record it reads. -/
def phaseOpacityT (T : PinTimings) (progress : ℚ) : ℚ :=
  let p := clamp01 progress
  if p ≤ T.fadeInEnd then p / T.fadeInEnd
  else if p ≤ T.holdEnd then 1
  else if p ≤ T.fadeOutEnd then 1 - (p - T.holdEnd) / (T.fadeOutEnd - T.holdEnd)
  else 0

/-- The phaseOpacity function exactly as in the source: it reads the global
TIMINGS constant. -/
def phaseOpacity : ℚ → ℚ := phaseOpacityT TIMINGS

/-- The active item index of a multi-item pinned section
(home.tsx lines 231-232 in PinnedStory, identically lines 308-309 in
PinnedAIGeneratedVisuals and lines 387-388 in PinnedCraftsmanship),
generalized over the item count N (the array length, 3 in every source
instance): min(N - 1, floor(clamp01((p - 0.2) / 0.5) * N)). -/
def activeIndex (N : ℕ) (p : ℚ) : ℤ :=
  let t := clamp01 ((p - 0.2) / 0.5)
  min ((N : ℤ) - 1) ⌊t * (N : ℚ)⌋

/-- Per-item opacity of a multi-item pinned section, generalized over the
item count N: the active item receives phaseOpacity(p), all others 0
(home.tsx lines 234-238, 311-314, 390-393). -/
def itemOpacity (N : ℕ) (p : ℚ) (i : ℕ) : ℚ :=
  if (i : ℤ) = activeIndex N p then phaseOpacity p else 0

/-- The PinnedHero update callback (home.tsx lines 99-104): returns the
(opacity, translateY) pair applied to the content target. -/
def pinnedHeroUpdate (p : ℚ) : ℚ × ℚ :=
  let opacity := phaseOpacity p
  (opacity, (1 - opacity) * 10)

/-- The PinnedDiamondReveal update callback (home.tsx lines 144-149):
returns the (opacity, translateY) pair applied to the stage target. -/
def pinnedDiamondUpdate (p : ℚ) : ℚ × ℚ :=
  let opacity := phaseOpacity p
  (opacity, (1 - opacity) * 10)

/-- The PinnedStory update callback for line i (home.tsx lines 228-240):
the active line gets (phaseOpacity p, translateY 0), every other line
gets (0, translateY 10). -/
def pinnedStoryUpdate (p : ℚ) (i : ℕ) : ℚ × ℚ :=
  let opacity := phaseOpacity p
  let idx := activeIndex 3 p
  if (i : ℤ) = idx then (opacity, 0) else (0, 10)

/-- The PinnedAIGeneratedVisuals update callback for image i
(home.tsx lines 305-315): only opacity is set, no transform. -/
def pinnedVisualsUpdate (p : ℚ) (i : ℕ) : ℚ :=
  if (i : ℤ) = activeIndex 3 p then phaseOpacity p else 0

/-- The pinned scroll range registered by usePinnedSection
(home.tsx line 75): (pinDurationVh ?? 200) * (innerHeight / 100). -/
def pinRange (pinDurationVh : Option ℚ) (innerHeight : ℚ) : ℚ :=
  (pinDurationVh.getD 200) * (innerHeight / 100)

/-- Modelled from the spec: the normalized progress computed by the Pin
Controller (GSAP ScrollTrigger, external to src/) while a section is
pinned; spec section 4.2: progress = clamp01((virtualPos - start) / pinDistance). -/
def pinProgress (start pos range : ℚ) : ℚ :=
  clamp01 ((pos - start) / range)

/-- Specification-side validity predicate on PinTimings, following the
words of the spec (section 3, PinTimings): 0 < fadeInEnd < holdEnd <
fadeOutEnd ≤ 1. The source contains no corresponding check. -/
def validTimings (T : PinTimings) : Prop :=
  0 < T.fadeInEnd ∧ T.fadeInEnd < T.holdEnd ∧ T.holdEnd < T.fadeOutEnd ∧ T.fadeOutEnd ≤ 1

instance (T : PinTimings) : Decidable (validTimings T) := by
  unfold validTimings; infer_instance

/-- A PinTimings value violating the required ordering (holdEnd below
fadeInEnd), used to exercise the unvalidated configuration path. -/
def badTimings : PinTimings :=
  { fadeInEnd := 0.7, holdEnd := 0.2, fadeOutEnd := 0.9 }

-- Basic helper lemmas -------------------------------------------------------

lemma TIMINGS_fadeInEnd : TIMINGS.fadeInEnd = 0.2 := rfl

lemma TIMINGS_holdEnd : TIMINGS.holdEnd = 0.7 := rfl

lemma TIMINGS_fadeOutEnd : TIMINGS.fadeOutEnd = 0.9 := rfl

lemma clamp01_nonneg (x : ℚ) : 0 ≤ clamp01 x :=
  le_min (by norm_num) (le_max_left 0 x)

lemma clamp01_le_one (x : ℚ) : clamp01 x ≤ 1 := min_le_left 1 (max 0 x)

lemma clamp01_eq_self {x : ℚ} (h0 : 0 ≤ x) (h1 : x ≤ 1) : clamp01 x = x := by
  unfold clamp01
  rw [max_eq_right h0, min_eq_right h1]

lemma clamp01_of_nonpos {x : ℚ} (h : x ≤ 0) : clamp01 x = 0 := by
  unfold clamp01
  rw [max_eq_left h, min_eq_right (by norm_num)]

lemma clamp01_of_one_le {x : ℚ} (h : 1 ≤ x) : clamp01 x = 1 := by
  unfold clamp01
  rw [max_eq_right (le_trans (by norm_num) h), min_eq_left h]

lemma clamp01_idem (x : ℚ) : clamp01 (clamp01 x) = clamp01 x :=
  clamp01_eq_self (clamp01_nonneg x) (clamp01_le_one x)

-- Branch evaluation lemmas for phaseOpacity with the default TIMINGS -------

lemma phaseOpacity_fadeIn {p : ℚ} (h0 : 0 ≤ p) (h : p ≤ 0.2) :
    phaseOpacity p = p / 0.2 := by
  have hc : clamp01 p = p := clamp01_eq_self h0 (h.trans (by norm_num))
  simp only [phaseOpacity, phaseOpacityT, hc, TIMINGS_fadeInEnd, TIMINGS_holdEnd,
    TIMINGS_fadeOutEnd]
  rw [if_pos h]

lemma phaseOpacity_hold_eq_one {p : ℚ} (h1 : 0.2 ≤ p) (h2 : p ≤ 0.7) :
    phaseOpacity p = 1 := by
  have hc : clamp01 p = p := clamp01_eq_self (le_trans (by norm_num) h1) (h2.trans (by norm_num))
  simp only [phaseOpacity, phaseOpacityT, hc, TIMINGS_fadeInEnd, TIMINGS_holdEnd,
    TIMINGS_fadeOutEnd]
  rcases eq_or_lt_of_le h1 with h | h
  · rw [if_pos (le_of_eq h.symm), ← h]
    norm_num
  · rw [if_neg (not_le.mpr h), if_pos h2]

lemma phaseOpacity_fadeOut_eq {p : ℚ} (h1 : 0.7 < p) (h2 : p ≤ 0.9) :
    phaseOpacity p = 1 - (p - 0.7) / 0.2 := by
  have hc : clamp01 p = p := clamp01_eq_self (by linarith) (by linarith)
  simp only [phaseOpacity, phaseOpacityT, hc, TIMINGS_fadeInEnd, TIMINGS_holdEnd,
    TIMINGS_fadeOutEnd]
  rw [if_neg (not_le.mpr (by linarith : (0.2:ℚ) < p)), if_neg (not_le.mpr h1), if_pos h2]
  norm_num

lemma phaseOpacity_after_eq_zero {p : ℚ} (h1 : 0.9 < p) : phaseOpacity p = 0 := by
  rcases le_or_lt p 1 with hp | hp
  · have hc : clamp01 p = p := clamp01_eq_self (by linarith) hp
    simp only [phaseOpacity, phaseOpacityT, hc, TIMINGS_fadeInEnd, TIMINGS_holdEnd,
      TIMINGS_fadeOutEnd]
    rw [if_neg (not_le.mpr (by linarith : (0.2:ℚ) < p)),
      if_neg (not_le.mpr (by linarith : (0.7:ℚ) < p)), if_neg (not_le.mpr h1)]
  · have hc : clamp01 p = 1 := clamp01_of_one_le hp.le
    simp only [phaseOpacity, phaseOpacityT, hc, TIMINGS_fadeInEnd, TIMINGS_holdEnd,
      TIMINGS_fadeOutEnd]
    rw [if_neg (by norm_num), if_neg (by norm_num), if_neg (by norm_num)]

lemma phaseOpacity_mem_of_Icc {p : ℚ} (h0 : 0 ≤ p) (_h1 : p ≤ 1) :
    0 ≤ phaseOpacity p ∧ phaseOpacity p ≤ 1 := by
  rcases le_or_lt p 0.2 with h | h
  · rw [phaseOpacity_fadeIn h0 h]
    refine ⟨div_nonneg h0 (by norm_num), ?_⟩
    rw [div_le_one (by norm_num)]
    exact h
  · rcases le_or_lt p 0.7 with h2 | h2
    · rw [phaseOpacity_hold_eq_one h.le h2]
      norm_num
    · rcases le_or_lt p 0.9 with h3 | h3
      · rw [phaseOpacity_fadeOut_eq h2 h3]
        have d0 : 0 ≤ (p - 0.7) / (0.2:ℚ) := div_nonneg (by linarith) (by norm_num)
        have d1 : (p - 0.7) / (0.2:ℚ) ≤ 1 := by
          rw [div_le_one (by norm_num)]
          linarith
        constructor <;> linarith
      · rw [phaseOpacity_after_eq_zero h3]
        norm_num

lemma phaseOpacity_clamp_arg (x : ℚ) : phaseOpacity x = phaseOpacity (clamp01 x) := by
  simp only [phaseOpacity, phaseOpacityT, clamp01_idem]

lemma phaseOpacity_mem (p : ℚ) : 0 ≤ phaseOpacity p ∧ phaseOpacity p ≤ 1 := by
  rw [phaseOpacity_clamp_arg]
  exact phaseOpacity_mem_of_Icc (clamp01_nonneg p) (clamp01_le_one p)

-- Claim theorems ------------------------------------------------------------

/-- C1: phaseOpacity equals the piecewise-linear reference definition with the
default thresholds fadeInEnd = 0.2, holdEnd = 0.7, fadeOutEnd = 0.9: for every
p in [0,1] it returns p / 0.2 when p ≤ 0.2, returns 1 when 0.2 < p ≤ 0.7,
returns 1 - (p - 0.7) / 0.2 when 0.7 < p ≤ 0.9, and returns 0 when p > 0.9;
in particular the values at 0, 0.2, 0.7, 0.9 and 1 are 0, 1, 1, 0, 0. -/
theorem phaseOpacity_piecewise (p : ℚ) (h0 : 0 ≤ p) (_h1 : p ≤ 1) :
    (p ≤ 0.2 → phaseOpacity p = p / 0.2) ∧
    (0.2 < p → p ≤ 0.7 → phaseOpacity p = 1) ∧
    (0.7 < p → p ≤ 0.9 → phaseOpacity p = 1 - (p - 0.7) / 0.2) ∧
    (0.9 < p → phaseOpacity p = 0) ∧
    phaseOpacity 0 = 0 ∧ phaseOpacity 0.2 = 1 ∧ phaseOpacity 0.7 = 1 ∧
    phaseOpacity 0.9 = 0 ∧ phaseOpacity 1 = 0 := by
  refine ⟨fun h => phaseOpacity_fadeIn h0 h,
    fun ha hb => phaseOpacity_hold_eq_one ha.le hb,
    fun ha hb => phaseOpacity_fadeOut_eq ha hb,
    fun ha => phaseOpacity_after_eq_zero ha, ?_, ?_, ?_, ?_, ?_⟩ <;>
  norm_num [phaseOpacity, phaseOpacityT, TIMINGS, clamp01]

/-- Witness for C1: the fade-out branch evaluated at p = 0.8. -/
theorem phaseOpacity_piecewise_witness :
    phaseOpacity 0.8 = 1 - (0.8 - 0.7) / 0.2 :=
  (phaseOpacity_piecewise 0.8 (by norm_num) (by norm_num)).2.2.1 (by norm_num) (by norm_num)

/-- C2: for a 3-item section the active index is 0 at p = 0.2, 1 at p = 0.45
and 2 at p = 0.7, and for every p in [0.2, 0.7] exactly one item receives
nonzero opacity: the active item receives phaseOpacity(p) and all others
receive 0. -/
theorem multiItem_selection (p : ℚ) (h1 : 0.2 ≤ p) (h2 : p ≤ 0.7) :
    activeIndex 3 0.2 = 0 ∧ activeIndex 3 0.45 = 1 ∧ activeIndex 3 0.7 = 2 ∧
    (∀ i : ℕ, (pinnedStoryUpdate p i).1 ≠ 0 ↔ (i : ℤ) = activeIndex 3 p) ∧
    (∀ i : ℕ, (i : ℤ) = activeIndex 3 p → (pinnedStoryUpdate p i).1 = phaseOpacity p) := by
  have hone : phaseOpacity p = 1 := phaseOpacity_hold_eq_one h1 h2
  refine ⟨by norm_num [activeIndex, clamp01], by norm_num [activeIndex, clamp01],
    by norm_num [activeIndex, clamp01], fun i => ?_, fun i hi => ?_⟩
  · simp only [pinnedStoryUpdate]
    split_ifs with h
    · simp [h, hone]
    · simp [h]
  · simp only [pinnedStoryUpdate]
    rw [if_pos hi]

/-- Witness for C2: at p = 0.45 the item at index 1 has nonzero opacity. -/
theorem multiItem_selection_witness : (pinnedStoryUpdate 0.45 1).1 ≠ 0 :=
  ((multiItem_selection 0.45 (by norm_num) (by norm_num)).2.2.2.1 1).mpr
    (by norm_num [activeIndex, clamp01])

/-- C3 counterexample: at progress p = 0.1 the active story line (index 0) is
given opacity phaseOpacity(0.1) = 1/2 but vertical offset 0, not
(1 - 1/2) * 10 = 5, so the offset is not (1 - opacity) * 10 for every pinned
rendering target. -/
theorem story_offset_mismatch :
    ¬ (pinnedStoryUpdate 0.1 0).2 = (1 - (pinnedStoryUpdate 0.1 0).1) * 10 := by
  norm_num [pinnedStoryUpdate, activeIndex, clamp01, phaseOpacity, phaseOpacityT, TIMINGS]

/-- C3 amended: the single-target sections (PinnedHero, PinnedDiamondReveal)
apply vertical offset (1 - opacity) * 10; in the multi-item PinnedStory
section only the inactive lines follow that relation (opacity 0, offset 10),
while the active line always gets offset 0 regardless of its opacity. -/
theorem pinned_offset_amended (p : ℚ) :
    (pinnedHeroUpdate p).2 = (1 - (pinnedHeroUpdate p).1) * 10 ∧
    (pinnedDiamondUpdate p).2 = (1 - (pinnedDiamondUpdate p).1) * 10 ∧
    (∀ i : ℕ, (i : ℤ) ≠ activeIndex 3 p →
      (pinnedStoryUpdate p i).2 = (1 - (pinnedStoryUpdate p i).1) * 10) ∧
    (∀ i : ℕ, (i : ℤ) = activeIndex 3 p → (pinnedStoryUpdate p i).2 = 0) := by
  refine ⟨rfl, rfl, fun i hi => ?_, fun i hi => ?_⟩
  · simp only [pinnedStoryUpdate]
    rw [if_neg hi]
    norm_num
  · simp only [pinnedStoryUpdate]
    rw [if_pos hi]

/-- Witness for C3 amended: evaluated at p = 0.3 with inactive index 2. -/
theorem pinned_offset_amended_witness :
    (pinnedHeroUpdate 0.3).2 = (1 - (pinnedHeroUpdate 0.3).1) * 10 ∧
    (pinnedStoryUpdate 0.3 2).2 = (1 - (pinnedStoryUpdate 0.3 2).1) * 10 :=
  ⟨(pinned_offset_amended 0.3).1,
   (pinned_offset_amended 0.3).2.2.1 2 (by norm_num [activeIndex, clamp01])⟩

/-- C4 counterexample: the source never validates PinTimings. A record whose
thresholds violate the required ordering (holdEnd = 0.2 below
fadeInEnd = 0.7) is a perfectly representable configuration, and the
phaseOpacity interpolation formula consumes it at runtime, returning
0.5 / 0.7 = 5/7 at p = 0.5 instead of any rejection. -/
theorem timings_unvalidated :
    ¬ validTimings badTimings ∧ phaseOpacityT badTimings 0.5 = 5 / 7 :=
  ⟨by norm_num [validTimings, badTimings],
   by norm_num [phaseOpacityT, badTimings, clamp01]⟩

/-- C4 amended: the code performs no configuration-time validation of
PinTimings; out-of-order thresholds flow unvalidated into the interpolation.
The only timings the code ever configures, the hardcoded TIMINGS constant,
do satisfy the required ordering 0 < fadeInEnd < holdEnd < fadeOutEnd ≤ 1. -/
theorem TIMINGS_satisfies_invariant : validTimings TIMINGS := by
  norm_num [validTimings, TIMINGS]

/-- C5: for every p in [0,1], phaseOpacity p lies in [0,1]. -/
theorem phaseOpacity_range (p : ℚ) (h0 : 0 ≤ p) (h1 : p ≤ 1) :
    0 ≤ phaseOpacity p ∧ phaseOpacity p ≤ 1 :=
  phaseOpacity_mem_of_Icc h0 h1

/-- Witness for C5: evaluated at p = 0.33. -/
theorem phaseOpacity_range_witness :
    0 ≤ phaseOpacity 0.33 ∧ phaseOpacity 0.33 ≤ 1 :=
  phaseOpacity_range 0.33 (by norm_num) (by norm_num)

/-- C6: phaseOpacity is monotone non-decreasing on [0, 0.2], constant 1 on
[0.2, 0.7], monotone non-increasing on [0.7, 0.9], and constant 0 on
[0.9, 1]. -/
theorem phaseOpacity_monotone :
    (∀ p q : ℚ, 0 ≤ p → p ≤ q → q ≤ 0.2 → phaseOpacity p ≤ phaseOpacity q) ∧
    (∀ p : ℚ, 0.2 ≤ p → p ≤ 0.7 → phaseOpacity p = 1) ∧
    (∀ p q : ℚ, 0.7 ≤ p → p ≤ q → q ≤ 0.9 → phaseOpacity q ≤ phaseOpacity p) ∧
    (∀ p : ℚ, 0.9 ≤ p → p ≤ 1 → phaseOpacity p = 0) := by
  refine ⟨fun p q hp hpq hq => ?_, fun p h1 h2 => phaseOpacity_hold_eq_one h1 h2,
    fun p q hp hpq hq => ?_, fun p hp hq => ?_⟩
  · rw [phaseOpacity_fadeIn hp (le_trans hpq hq), phaseOpacity_fadeIn (le_trans hp hpq) hq]
    gcongr
  · rcases eq_or_lt_of_le hp with h | h
    · rw [phaseOpacity_hold_eq_one (by linarith) (le_of_eq h.symm)]
      exact (phaseOpacity_mem q).2
    · rw [phaseOpacity_fadeOut_eq (lt_of_lt_of_le h hpq) hq,
        phaseOpacity_fadeOut_eq h (le_trans hpq hq)]
      have hd : (p - 0.7) / (0.2:ℚ) ≤ (q - 0.7) / 0.2 := by gcongr
      linarith
  · rcases eq_or_lt_of_le hp with h | h
    · subst h
      norm_num [phaseOpacity, phaseOpacityT, TIMINGS, clamp01]
    · exact phaseOpacity_after_eq_zero h

/-- Witness for C6: one concrete instance of each of the four regimes. -/
theorem phaseOpacity_monotone_witness :
    phaseOpacity 0.05 ≤ phaseOpacity 0.15 ∧ phaseOpacity 0.5 = 1 ∧
    phaseOpacity 0.85 ≤ phaseOpacity 0.75 ∧ phaseOpacity 0.95 = 0 :=
  ⟨phaseOpacity_monotone.1 0.05 0.15 (by norm_num) (by norm_num) (by norm_num),
   phaseOpacity_monotone.2.1 0.5 (by norm_num) (by norm_num),
   phaseOpacity_monotone.2.2.1 0.75 0.85 (by norm_num) (by norm_num) (by norm_num),
   phaseOpacity_monotone.2.2.2 0.95 (by norm_num) (by norm_num)⟩

/-- C7: the registered pin range is pinDurationVh * (innerHeight / 100) with
default 200 when the option is absent; for 200vh and an 800px viewport the
range is 1600 units, a virtual offset of start + 320 yields progress 0.2,
phaseOpacity(0.2) = 1 and a 3-item section has activeIndex 0 there. -/
theorem pin_range_scenario :
    (∀ d h : ℚ, pinRange (some d) h = d * (h / 100)) ∧
    (∀ h : ℚ, pinRange none h = 200 * (h / 100)) ∧
    pinRange (some 200) 800 = 1600 ∧
    (∀ s : ℚ, pinProgress s (s + 320) (pinRange (some 200) 800) = 0.2) ∧
    phaseOpacity 0.2 = 1 ∧ activeIndex 3 0.2 = 0 := by
  refine ⟨fun d h => rfl, fun h => rfl, by norm_num [pinRange], fun s => ?_, ?_, ?_⟩
  · have h320 : s + 320 - s = (320:ℚ) := by ring
    norm_num [pinProgress, pinRange, h320, clamp01]
  · norm_num [phaseOpacity, phaseOpacityT, TIMINGS, clamp01]
  · norm_num [activeIndex, clamp01]

/-- C8: clamp01 maps inputs below 0 to 0, inputs above 1 to 1, and is the
identity on [0,1]. -/
theorem clamp01_boundary (x : ℚ) :
    (x < 0 → clamp01 x = 0) ∧ (1 < x → clamp01 x = 1) ∧
    (0 ≤ x → x ≤ 1 → clamp01 x = x) :=
  ⟨fun h => clamp01_of_nonpos h.le, fun h => clamp01_of_one_le h.le,
   fun h0 h1 => clamp01_eq_self h0 h1⟩

/-- Witness for C8: the three regimes at -2, 2 and 1/2. -/
theorem clamp01_boundary_witness :
    clamp01 (-2) = 0 ∧ clamp01 2 = 1 ∧ clamp01 (1/2) = 1/2 :=
  ⟨(clamp01_boundary (-2)).1 (by norm_num), (clamp01_boundary 2).2.1 (by norm_num),
   (clamp01_boundary (1/2)).2.2 (by norm_num) (by norm_num)⟩

/-- C9: phaseOpacity is total: for every rational x it agrees with its value
at clamp01 x, so out-of-range callers still get a result in [0,1]. -/
theorem phaseOpacity_total (x : ℚ) :
    phaseOpacity x = phaseOpacity (clamp01 x) ∧
    0 ≤ phaseOpacity x ∧ phaseOpacity x ≤ 1 :=
  ⟨phaseOpacity_clamp_arg x, phaseOpacity_mem x⟩

/-- C10: the multi-item active index saturates outside the remapped hold
window: for every N ≥ 1, p < 0.2 gives index 0 and p ≥ 0.7 gives index
N - 1; the index always lies in [0, N - 1], the first item carries the
fade-in ramp opacity and the last item carries the fade-out ramp opacity. -/
theorem activeIndex_saturates (N : ℕ) (hN : 1 ≤ N) (p : ℚ) :
    (p < 0.2 → activeIndex N p = 0) ∧
    (0.7 ≤ p → activeIndex N p = (N : ℤ) - 1) ∧
    (0 ≤ activeIndex N p ∧ activeIndex N p ≤ (N : ℤ) - 1) ∧
    (p < 0.2 → itemOpacity N p 0 = phaseOpacity p) ∧
    (0.7 ≤ p → itemOpacity N p (N - 1) = phaseOpacity p) := by
  have hN1 : (1:ℤ) ≤ (N:ℤ) := by exact_mod_cast hN
  have hlow : p < 0.2 → activeIndex N p = 0 := by
    intro h
    have hneg : (p - 0.2) / 0.5 ≤ 0 :=
      div_nonpos_iff.mpr (Or.inr ⟨by linarith, by norm_num⟩)
    simp only [activeIndex, clamp01_of_nonpos hneg, zero_mul, Int.floor_zero]
    exact min_eq_right (by linarith)
  have hhigh : 0.7 ≤ p → activeIndex N p = (N:ℤ) - 1 := by
    intro h
    have hone : (1:ℚ) ≤ (p - 0.2) / 0.5 := by
      rw [le_div_iff₀ (by norm_num)]
      linarith
    simp only [activeIndex, clamp01_of_one_le hone, one_mul, Int.floor_natCast]
    exact min_eq_left (by linarith)
  refine ⟨hlow, hhigh, ⟨?_, min_le_left _ _⟩, fun h => ?_, fun h => ?_⟩
  · refine le_min (by linarith) (Int.floor_nonneg.mpr ?_)
    exact mul_nonneg (clamp01_nonneg _) (by positivity)
  · simp only [itemOpacity]
    rw [hlow h, if_pos (by norm_num)]
  · simp only [itemOpacity]
    rw [hhigh h, if_pos (by omega)]

/-- Witness for C10: saturation at N = 3 for p = 0.1 and p = 0.8. -/
theorem activeIndex_saturates_witness :
    activeIndex 3 0.1 = 0 ∧ activeIndex 3 0.8 = 2 := by
  refine ⟨(activeIndex_saturates 3 (by norm_num) 0.1).1 (by norm_num), ?_⟩
  have h := (activeIndex_saturates 3 (by norm_num) 0.8).2.1 (by norm_num)
  omega

end LabDiamonds
